import Mathlib

/-!
Verification of the Oriphim runner supervisor
(src/oriphim_runner/src-tauri/src/main.rs).

The supervisor state is the pair of the optional worker-process handle and
the boolean running flag.  Operating-system effects (spawn, kill, wait) are
nondeterministic from the point of view of the program, so every embedded
operation takes the outcome of each OS call as an explicit argument and
returns, besides the new state and the Result value, the list of external
events it performed (kills, waits, spawn attempts, process exit).
-/

namespace Oriphim

/-- Description of one spawned command: program name, arguments, optional
working directory, and whether stdout and stderr are piped.  Mirrors the
builder chains on std::process::Command in main.rs. -/
structure SpawnCmd where
  program : String
  args : List String
  current_dir : Option String
  stdout_piped : Bool
  stderr_piped : Bool
  deriving DecidableEq, Repr

/-- External events performed by the supervisor code, in order. -/
inductive Event where
  | killEv (handle : Nat)
  | waitEv (handle : Nat)
  | spawnEv (cmd : SpawnCmd)
  | stopCallEv
  | exitEv (code : Nat)
  deriving DecidableEq, Repr

/-- RunnerState from main.rs lines 14-18: the optional child-process handle
(children are modelled as opaque numeric identifiers) and the running flag.
The two Mutex fields are acquired together for the whole of every operation,
so the embedding treats the pair as one state record. -/
structure RunnerState where
  python_process : Option Nat
  is_running : Bool
  deriving DecidableEq, Repr

/-- RunnerState::new (main.rs lines 21-26): handle absent, flag false. -/
def RunnerState.new : RunnerState :=
  { python_process := none, is_running := false }

/-- Outcomes of the three OS calls start_python_runner can make: the kill
and wait on a prior child (both results discarded by the code) and the
spawn of the new child (error carries the OS message, success carries the
new handle). -/
structure StartOS where
  kill_result : Except String Unit
  wait_result : Except String Unit
  spawn_result : Except String Nat
  deriving Repr

/-- The fixed launch command of main.rs lines 44-49: program "python",
single argument "main.py", working directory "src", stdout and stderr
piped. -/
def pythonSpawnCmd : SpawnCmd :=
  { program := "python"
    args := ["main.py"]
    current_dir := some "src"
    stdout_piped := true
    stderr_piped := true }

/-- start_python_runner (main.rs lines 31-62).  If a handle is present it
is taken out of the store and killed and waited on, both results discarded.
Then the fixed command is spawned: on success the new handle is stored and
the flag set to true; on failure the state is left as after the take (the
flag is not written on this path). -/
def start_python_runner (os : StartOS) (st : RunnerState) :
    RunnerState × Except String String × List Event :=
  let killEvs : List Event :=
    match st.python_process with
    | some child => [Event.killEv child, Event.waitEv child]
    | none => []
  let taken : RunnerState := { st with python_process := none }
  match os.spawn_result with
  | Except.ok child =>
      ({ python_process := some child, is_running := true },
       Except.ok "Python runner started",
       killEvs ++ [Event.spawnEv pythonSpawnCmd])
  | Except.error e =>
      (taken,
       Except.error ("Failed to start Python runner: " ++ e),
       killEvs ++ [Event.spawnEv pythonSpawnCmd])

/-- stop_python_runner (main.rs lines 65-88).  The handle is taken out of
the store; if none was present, success with an informational message.
Otherwise the child is killed: on success it is waited on, the flag is set
to false and success is returned; on kill failure an error is returned --
the taken child has already left the store and is dropped, and the flag is
not written. -/
def stop_python_runner (kill_result : Except String Unit) (st : RunnerState) :
    RunnerState × Except String String × List Event :=
  match st.python_process with
  | some child =>
      match kill_result with
      | Except.ok _ =>
          ({ python_process := none, is_running := false },
           Except.ok "Python runner stopped",
           [Event.killEv child, Event.waitEv child])
      | Except.error e =>
          ({ st with python_process := none },
           Except.error ("Failed to stop Python runner: " ++ e),
           [Event.killEv child])
  | none =>
      (st, Except.ok "No runner process to stop", [])

/-- get_runner_status (main.rs lines 91-94): reads the flag under the lock
and returns it; the state is not written. -/
def get_runner_status (st : RunnerState) : RunnerState × Except String Bool :=
  (st, Except.ok st.is_running)

/-- A completed supervisor operation together with the outcomes of the OS
calls it may make. -/
inductive Op where
  | startOp (os : StartOS)
  | stopOp (kill_result : Except String Unit)
  | statusOp

/-- State after one completed operation. -/
def runOp (st : RunnerState) : Op → RunnerState
  | Op.startOp os => (start_python_runner os st).1
  | Op.stopOp k => (stop_python_runner k st).1
  | Op.statusOp => (get_runner_status st).1

/-- State after a sequence of completed operations. -/
def runOps (ops : List Op) (st : RunnerState) : RunnerState :=
  ops.foldl runOp st

/-- Whether an operation, run from the given state, returns Ok. -/
def opOk (st : RunnerState) : Op → Bool
  | Op.startOp os =>
      match (start_python_runner os st).2.1 with
      | Except.ok _ => true
      | Except.error _ => false
  | Op.stopOp k =>
      match (stop_python_runner k st).2.1 with
      | Except.ok _ => true
      | Except.error _ => false
  | Op.statusOp => true

/-- Whether every operation of the sequence, run in order from the given
state, returns Ok. -/
def allOk : List Op → RunnerState → Bool
  | [], _ => true
  | op :: ops, st => opOk st op && allOk ops (runOp st op)

/-- The quit arm of handle_system_tray_event (main.rs lines 190-198): call
stop_python_runner once, discard its result, then exit the host process
with code 0. -/
def quit_action (kill_result : Except String Unit) (st : RunnerState) :
    RunnerState × List Event :=
  let r := stop_python_runner kill_result st
  (r.1, Event.stopCallEv :: r.2.2 ++ [Event.exitEv 0])

/-- Actions the window-event handler can take on the host window. -/
inductive WindowAction where
  | hideWindow
  | preventClose
  deriving DecidableEq, Repr

/-- The window events distinguished by the handler in main.rs
lines 216-223: a close request, or anything else. -/
inductive HostWindowEvent where
  | closeRequested
  | otherEvent
  deriving DecidableEq, Repr

/-- The on_window_event closure of main.rs lines 216-223: a close request
hides the window and suppresses the default close; the closure does not
touch the RunnerState. -/
def on_window_event (ev : HostWindowEvent) (st : RunnerState) :
    RunnerState × List WindowAction :=
  match ev with
  | HostWindowEvent.closeRequested =>
      (st, [WindowAction.hideWindow, WindowAction.preventClose])
  | HostWindowEvent.otherEvent => (st, [])

/-- open_logs_folder (main.rs lines 97-128).  The home directory is an
optional string supplied by the environment; path joining is modelled as
separator concatenation.  The platform file-browser program (explorer,
open or xdg-open, one per cfg block) is the opener argument, and the
outcome of its spawn is supplied as well; the list returned records every
spawn attempt. -/
def open_logs_folder (opener : String) (home_dir : Option String)
    (spawn_result : Except String Unit) : Except String String × List SpawnCmd :=
  match home_dir with
  | none => (Except.error "Could not find home directory", [])
  | some home =>
      let logs_path := home ++ "/.oriphim" ++ "/logs"
      let cmd : SpawnCmd :=
        { program := opener
          args := [logs_path]
          current_dir := none
          stdout_piped := false
          stderr_piped := false }
      match spawn_result with
      | Except.ok _ => (Except.ok "Logs folder opened", [cmd])
      | Except.error e =>
          (Except.error ("Failed to open logs folder: " ++ e), [cmd])

/-- A spawn outcome that succeeds, handing back child handle 1. -/
def osOk : StartOS :=
  { kill_result := Except.ok ()
    wait_result := Except.ok ()
    spawn_result := Except.ok 1 }

/-- A spawn outcome that fails with an OS error message. -/
def osFail : StartOS :=
  { kill_result := Except.ok ()
    wait_result := Except.ok ()
    spawn_result := Except.error "spawn failure" }

/-!  Theorems settling the claims.  -/

/-- C7: get_runner_status returns exactly the current value of the running
flag, leaves the state (handle and flag) unchanged, and always returns a
success result. -/
theorem status_pure (st : RunnerState) :
    get_runner_status st = (st, Except.ok st.is_running) := rfl

/-- C5: stop_python_runner with no stored handle returns a success result
carrying the message "No runner process to stop", leaves the state (so in
particular the running flag) unchanged, and performs no kill. -/
theorem stop_without_handle (k : Except String Unit) (st : RunnerState)
    (h : st.python_process = none) :
    stop_python_runner k st = (st, Except.ok "No runner process to stop", []) := by
  simp [stop_python_runner, h]

/-- Witness for stop_without_handle at the initial state: the flag was
false and remains false. -/
theorem stop_without_handle_w :
    stop_python_runner (Except.ok ()) RunnerState.new =
      (RunnerState.new, Except.ok "No runner process to stop", []) :=
  stop_without_handle (Except.ok ()) RunnerState.new rfl

/-- C9: a close-request event hides the window and suppresses the default
close action, and the supervisor state (handle and flag) is exactly
unchanged by it. -/
theorem close_request_no_supervisor_effect (st : RunnerState) :
    on_window_event HostWindowEvent.closeRequested st =
      (st, [WindowAction.hideWindow, WindowAction.preventClose]) := rfl

/-- C10: when the home directory cannot be determined, open_logs_folder
returns the failure result "Could not find home directory" and spawns
nothing; otherwise the single path handed to the platform opener is the
home directory joined with ".oriphim" and "logs". -/
theorem open_logs_folder_spec (opener : String) (home : String)
    (r : Except String Unit) :
    open_logs_folder opener none r =
      (Except.error "Could not find home directory", []) ∧
    (open_logs_folder opener (some home) r).2.map SpawnCmd.args =
      [[home ++ "/.oriphim" ++ "/logs"]] := by
  cases r <;> simp [open_logs_folder]

/-- C6: on a successful launch start_python_runner stores the new handle,
sets the flag to true, returns the success result, and the spawn it
performed last used the fixed command: interpreter "python", single
argument "main.py", working directory "src", stdout and stderr piped. -/
theorem start_success_spec (os : StartOS) (st : RunnerState) (child : Nat)
    (h : os.spawn_result = Except.ok child) :
    (start_python_runner os st).1 =
      { python_process := some child, is_running := true } ∧
    (start_python_runner os st).2.1 = Except.ok "Python runner started" ∧
    (start_python_runner os st).2.2.getLast? =
      some (Event.spawnEv pythonSpawnCmd) ∧
    pythonSpawnCmd =
      { program := "python", args := ["main.py"], current_dir := some "src",
        stdout_piped := true, stderr_piped := true } := by
  cases hp : st.python_process <;> simp [start_python_runner, h, hp, pythonSpawnCmd]

/-- Witness for start_success_spec at a concrete successful spawn. -/
theorem start_success_spec_w :
    (start_python_runner osOk RunnerState.new).1 =
      { python_process := some 1, is_running := true } ∧
    (start_python_runner osOk RunnerState.new).2.1 =
      Except.ok "Python runner started" ∧
    (start_python_runner osOk RunnerState.new).2.2.getLast? =
      some (Event.spawnEv pythonSpawnCmd) ∧
    pythonSpawnCmd =
      { program := "python", args := ["main.py"], current_dir := some "src",
        stdout_piped := true, stderr_piped := true } :=
  start_success_spec osOk RunnerState.new 1 rfl

/-- C1 counterexample: with handle 7 stored and the flag true, a failing
kill makes stop_python_runner return a failure result, but the handle is
NOT still present in the store: it was taken out before the kill attempt
and is dropped, leaving the store empty (the flag keeps its prior value).
-/
theorem stop_failure_cex :
    stop_python_runner (Except.error "simulated")
        { python_process := some 7, is_running := true } =
      ({ python_process := none, is_running := true },
       Except.error "Failed to stop Python runner: simulated",
       [Event.killEv 7]) := rfl

/-- C1 amended: if stop is called while a handle is stored and the kill
fails, stop returns a failure result and the running flag keeps its prior
value, but the handle is removed from the store (it was taken before the
kill), so a retry of stop takes the no-process path instead. -/
theorem stop_failure_state (st : RunnerState) (child : Nat) (e : String)
    (h : st.python_process = some child) :
    stop_python_runner (Except.error e) st =
      ({ python_process := none, is_running := st.is_running },
       Except.error ("Failed to stop Python runner: " ++ e),
       [Event.killEv child]) := by
  simp [stop_python_runner, h]

/-- Witness for stop_failure_state at handle 5, flag true, error "oops". -/
theorem stop_failure_state_w :
    stop_python_runner (Except.error "oops")
        { python_process := some 5, is_running := true } =
      ({ python_process := none, is_running := true },
       Except.error "Failed to stop Python runner: oops",
       [Event.killEv 5]) :=
  stop_failure_state { python_process := some 5, is_running := true } 5 "oops" rfl

/-- C2 counterexample: from the state with handle 3 stored and flag true,
a launch failure makes start_python_runner return a failure result with
the handle absent, but the running flag is left TRUE, not false: the
failure path never writes the flag. -/
theorem start_failure_cex :
    start_python_runner osFail { python_process := some 3, is_running := true } =
      ({ python_process := none, is_running := true },
       Except.error "Failed to start Python runner: spawn failure",
       [Event.killEv 3, Event.waitEv 3, Event.spawnEv pythonSpawnCmd]) := rfl

/-- C2 amended: for every starting state, if the process launch fails,
start returns a descriptive failure result carrying the OS error and the
handle store is left absent, but the running flag keeps its prior value
(so it is false exactly when it was false before the call). -/
theorem start_failure_state (os : StartOS) (st : RunnerState) (e : String)
    (h : os.spawn_result = Except.error e) :
    (start_python_runner os st).1 =
      { python_process := none, is_running := st.is_running } ∧
    (start_python_runner os st).2.1 =
      Except.error ("Failed to start Python runner: " ++ e) := by
  cases hp : st.python_process <;> simp [start_python_runner, h, hp]

/-- Witness for start_failure_state from the initial state. -/
theorem start_failure_state_w :
    (start_python_runner osFail RunnerState.new).1 =
      { python_process := none, is_running := RunnerState.new.is_running } ∧
    (start_python_runner osFail RunnerState.new).2.1 =
      Except.error ("Failed to start Python runner: " ++ "spawn failure") :=
  start_failure_state osFail RunnerState.new "spawn failure" rfl

/-- C4: start with a handle present kills and waits on the prior handle
exactly once and then performs the launch spawn (the whole event trace is
exactly kill, wait, spawn, so it is never a no-op), and the kill and wait
outcomes do not affect start at all: any two OS oracles agreeing on the
spawn outcome give identical results. -/
theorem start_restart_semantics (os os2 : StartOS) (st : RunnerState)
    (child : Nat) (h : st.python_process = some child)
    (hspawn : os.spawn_result = os2.spawn_result) :
    (start_python_runner os st).2.2 =
      [Event.killEv child, Event.waitEv child, Event.spawnEv pythonSpawnCmd] ∧
    start_python_runner os st = start_python_runner os2 st := by
  cases hs : os.spawn_result <;>
    simp [start_python_runner, h, hs, ← hspawn]

/-- Witness for start_restart_semantics: prior handle 9, a kill and a wait
that both error (and are ignored), successful spawn of handle 2. -/
theorem start_restart_semantics_w :
    (start_python_runner
        { kill_result := Except.error "k", wait_result := Except.error "w",
          spawn_result := Except.ok 2 }
        { python_process := some 9, is_running := true }).2.2 =
      [Event.killEv 9, Event.waitEv 9, Event.spawnEv pythonSpawnCmd] ∧
    start_python_runner
        { kill_result := Except.error "k", wait_result := Except.error "w",
          spawn_result := Except.ok 2 }
        { python_process := some 9, is_running := true } =
      start_python_runner
        { kill_result := Except.ok (), wait_result := Except.ok (),
          spawn_result := Except.ok 2 }
        { python_process := some 9, is_running := true } :=
  start_restart_semantics _ _ { python_process := some 9, is_running := true }
    9 rfl rfl

/-- C8: the quit action invokes stop exactly once and its event trace ends
with a host-process exit with code 0, emitted exactly once, whatever the
state and whatever the outcome of the kill inside stop (success or
failure). -/
theorem quit_stops_then_exits (k : Except String Unit) (st : RunnerState) :
    (quit_action k st).2.count Event.stopCallEv = 1 ∧
    (quit_action k st).2.getLast? = some (Event.exitEv 0) ∧
    (quit_action k st).2.count (Event.exitEv 0) = 1 := by
  cases hp : st.python_process <;> cases k <;>
    simp [quit_action, stop_python_runner, hp, List.count_cons, List.count_append]

/-- C3 counterexample: the two-operation sequence "start succeeds, start
fails to launch", run from the initial state, completes with the running
flag true while no handle is present in the store: the flag does not match
handle presence after every completed sequence. -/
theorem invariant_cex :
    (runOps [Op.startOp osOk, Op.startOp osFail] RunnerState.new).is_running = true ∧
    (runOps [Op.startOp osOk, Op.startOp osFail] RunnerState.new).python_process
      = none := by
  constructor <;> rfl

/-- One successful operation preserves agreement of the flag with handle
presence. -/
theorem opOk_preserves_inv (st : RunnerState) (op : Op)
    (hinv : st.is_running = st.python_process.isSome)
    (hok : opOk st op = true) :
    (runOp st op).is_running = (runOp st op).python_process.isSome := by
  cases op with
  | startOp os =>
      cases hs : os.spawn_result with
      | ok child => simp [runOp, start_python_runner, hs]
      | error e =>
          exfalso
          simp [opOk, start_python_runner, hs] at hok
  | stopOp k =>
      cases hp : st.python_process with
      | none => simp [runOp, stop_python_runner, hp, hp ▸ hinv]
      | some child =>
          cases k with
          | ok u => simp [runOp, stop_python_runner, hp]
          | error e =>
              exfalso
              simp [opOk, stop_python_runner, hp] at hok
  | statusOp => simpa [runOp, get_runner_status] using hinv

/-- A sequence of successful operations preserves agreement of the flag
with handle presence, from any state satisfying it. -/
theorem allOk_preserves_inv (ops : List Op) :
    ∀ st : RunnerState, st.is_running = st.python_process.isSome →
      allOk ops st = true →
      (runOps ops st).is_running = (runOps ops st).python_process.isSome := by
  induction ops with
  | nil => intro st hinv _; simpa [runOps] using hinv
  | cons op ops ih =>
      intro st hinv hok
      rw [allOk, Bool.and_eq_true] at hok
      have hstep := opOk_preserves_inv st op hinv hok.1
      simpa [runOps, List.foldl_cons] using ih (runOp st op) hstep hok.2

/-- C3 amended: starting from the initial state, after every completed
sequence of start, stop and status operations in which every operation
returned success, the running flag is true exactly when a handle is
present; a failing launch or a failing kill can break this (see the
counterexample). -/
theorem flag_matches_handle (ops : List Op)
    (h : allOk ops RunnerState.new = true) :
    (runOps ops RunnerState.new).is_running =
      (runOps ops RunnerState.new).python_process.isSome :=
  allOk_preserves_inv ops RunnerState.new rfl h

/-- Witness for flag_matches_handle on the sequence start, status, stop,
stop: all four operations succeed and afterwards the flag and the handle
agree. -/
theorem flag_matches_handle_w :
    allOk [Op.startOp osOk, Op.statusOp, Op.stopOp (Except.ok ()),
      Op.stopOp (Except.ok ())] RunnerState.new = true ∧
    (runOps [Op.startOp osOk, Op.statusOp, Op.stopOp (Except.ok ()),
      Op.stopOp (Except.ok ())] RunnerState.new).is_running =
      (runOps [Op.startOp osOk, Op.statusOp, Op.stopOp (Except.ok ()),
        Op.stopOp (Except.ok ())] RunnerState.new).python_process.isSome :=
  ⟨rfl, flag_matches_handle _ rfl⟩

end Oriphim
